import Mathlib

/-!
# Verification of the BasicAgent tool-calling loop

Shallow embedding of `src/video_tutorial_materials/01_basic_agent.ipynb`
(`bipa-app/multi-agent-concierge`).  The notebook defines a llama-index
`Workflow` subclass `BasicAgent` with four steps:

* `setup`            — validates the start event and seeds the context;
* `speak_with_agent` — builds the system message, calls the LLM, parses
  tool calls, and either stops (no tool calls) or dispatches one
  `ToolCallEvent` per parsed tool call;
* `handle_tool_call` — resolves the tool by name and invokes it;
* `aggregate_tool_results` — the join barrier that collects one
  `ToolCallResultEvent` per dispatched call before appending the results
  to the chat history and looping back to the LLM.

The embedding is deterministic: the LLM is modelled as a script (a list
of response messages, each carrying the tool-call directives the parser
would extract from it), a raised Python exception is an `Except.error`,
and the event fan-out/fan-in is modelled by feeding the dispatched calls
to `handle_tool_call` in order and folding the results through the
`aggregate_tool_results` step (a representative arrival interleaving).
`ProgressEvent` stream writes are pure observability and carry no state,
so they are not part of the embedded state.
-/

namespace BasicAgent

/-- Message roles of llama-index `ChatMessage`. -/
inductive Role where
  | system
  | user
  | assistant
  | tool
deriving DecidableEq, Repr

/-- A parsed tool-call directive (llama-index `ToolSelection`): call id,
tool name, and keyword arguments (modelled as string key/value pairs). -/
structure ToolSelection where
  tool_id : String
  tool_name : String
  tool_kwargs : List (String × String)
deriving DecidableEq, Repr

/-- llama-index `ChatMessage`.  `additional_kwargs` is flattened to the two
keys the notebook writes (`tool_call_id` and `name`); an assistant response
message additionally carries the tool-call directives that
`llm.get_tool_calls_from_response` extracts from it (in the real API these
live in `additional_kwargs` of the response message). -/
structure ChatMessage where
  role : Role
  content : String
  tool_call_id : Option String := none
  name : Option String := none
  tool_calls : List ToolSelection := []
deriving DecidableEq, Repr

/-- A tool (llama-index `BaseTool`): `metadata.get_name()` is the `name`
field and `acall` is `call`; a Python exception raised by the tool is an
`Except.error` carrying the rendered exception text. -/
structure BaseTool where
  name : String
  call : List (String × String) → Except String String

/-- The pydantic `AgentConfig` model of the notebook. -/
structure AgentConfig where
  name : String
  description : String
  system_prompt : Option String := none
  tools : Option (List BaseTool) := none

/-- Constructing an `AgentConfig`.  The pydantic model declares
`model_config` and four typed fields but no validator of any kind, so
construction of well-typed field values always succeeds; the `Except`
codomain records that a pydantic validation failure is representable, but
the body shows none is ever produced. -/
def mk_agent_config (name description : String) (system_prompt : Option String)
    (tools : Option (List BaseTool)) : Except String AgentConfig :=
  .ok { name := name, description := description,
        system_prompt := system_prompt, tools := tools }

/-- A Python exception escaping a step. -/
inductive RunError where
  /-- `raise ValueError(msg)` -/
  | valueError (msg : String)
  /-- `AttributeError`: a value of `None` has no attribute `attr` -/
  | attributeError (attr : String)
  /-- `TypeError` (e.g. iterating over `None`) -/
  | typeError (msg : String)
deriving DecidableEq, Repr

/-- The dict comprehension `{tool.metadata.get_name(): tool for tool in
ev.tools}` followed by `.get(name)`: later duplicates overwrite earlier
entries, so the lookup resolves to the *last* tool bearing the name. -/
def tools_by_name_get (tools : List BaseTool) (n : String) : Option BaseTool :=
  tools.foldl (fun acc t => if t.name = n then some t else acc) none

/-- `BasicAgent.handle_tool_call`, mirroring the source order faithfully:

* `for tool in ev.tools` — iterating a `None` tool list raises `TypeError`;
* `tool = tools_by_name.get(tool_call.tool_name)`;
* `additional_kwargs = {"tool_call_id": ..., "name": tool.metadata.get_name()}`
  is built **before** the `if not tool:` check, so when the tool is absent
  this line raises `AttributeError` (`None` has no attribute `metadata`)
  and the `"Tool ... does not exist"` branch below it is unreachable;
* when the tool is present, `tool.acall(**tool_call.tool_kwargs)` runs
  inside `try/except Exception`, converting any raised error into a
  tool-role message describing it.

The `ctx.write_event_to_stream(ProgressEvent(...))` call is
observability-only and not part of the returned state. -/
def handle_tool_call (tools : Option (List BaseTool)) (tc : ToolSelection) :
    Except RunError ChatMessage :=
  match tools with
  | none => .error (.typeError "NoneType object is not iterable")
  | some ts =>
    match tools_by_name_get ts tc.tool_name with
    | none => .error (.attributeError "metadata")
    | some tool =>
      match tool.call tc.tool_kwargs with
      | .ok content =>
          .ok { role := .tool, content := content,
                tool_call_id := some tc.tool_id, name := some tool.name }
      | .error e =>
          .ok { role := .tool, content := "Encountered error in tool call: " ++ e,
                tool_call_id := some tc.tool_id, name := some tool.name }

/-- The per-round aggregation context of `BasicAgent.aggregate_tool_results`:
the recorded `num_tool_calls`, the `ctx.collect_events` buffer, and the
chat history held in the workflow context. -/
structure AggCtx where
  num_tool_calls : Nat
  buffer : List ChatMessage
  chat_history : List ChatMessage
deriving DecidableEq, Repr

/-- `BasicAgent.aggregate_tool_results` on the arrival of one
`ToolCallResultEvent`.  `ctx.collect_events(ev, [ToolCallResultEvent] *
num_tool_calls)` buffers the event and returns `None` until the expected
number of events has arrived (the step then does nothing — `if not
results: return`); once they have, it consumes the buffer, appends every
collected `chat_message` to the chat history, and returns an
`LLMCallEvent` (the `Bool` component: `true` = `LLMCallEvent` emitted). -/
def aggregate_tool_results (a : AggCtx) (ev : ChatMessage) : AggCtx × Bool :=
  let buf := a.buffer ++ [ev]
  if a.num_tool_calls ≤ buf.length then
    ({ a with buffer := [], chat_history := a.chat_history ++ buf }, true)
  else
    ({ a with buffer := buf }, false)

/-- Folding a sequence of arriving `ToolCallResultEvent`s through the
`aggregate_tool_results` step. -/
def agg_run (a : AggCtx) (results : List ChatMessage) : AggCtx :=
  results.foldl (fun a ev => (aggregate_tool_results a ev).1) a

/-- Python `str.strip()`: the string with leading and trailing whitespace
removed (structural model over the character list, so that it evaluates
inside the kernel). -/
def py_strip (s : String) : String :=
  ⟨((s.data.dropWhile Char.isWhitespace).reverse.dropWhile Char.isWhitespace).reverse⟩

/-- `user_state_str = "\n".join([f"{k}: {v}" for k, v in user_state.items()])` -/
def user_state_str (st : List (String × String)) : String :=
  String.intercalate "\n" (st.map fun kv => kv.1 ++ ": " ++ kv.2)

/-- `system_prompt = agent_config.system_prompt.strip() + f"\n\nHere is the
current user state:\n{user_state_str}"` (for a non-`None` prompt `p`). -/
def build_system_prompt (p : String) (st : List (String × String)) : String :=
  py_strip p ++ "\n\nHere is the current user state:\n" ++ user_state_str st

/-- Splitting a character list at newline separators (an observation
function for stating "contains the literal line"). -/
def split_lines (cs : List Char) : List (List Char) :=
  cs.foldr
    (fun c acc =>
      if c = '\n' then [] :: acc
      else
        match acc with
        | [] => [[c]]
        | l :: ls => (c :: l) :: ls)
    [[]]

/-- Whether `line` occurs as one full line of `s`. -/
def has_line (s line : String) : Bool :=
  (split_lines s.data).contains line.data

/-- The mutable workflow context relevant to the loop: the stored agent
config (possibly `None`: `setup` stores it unchecked), the chat history,
and the user state. -/
structure LoopState where
  agent_config : Option AgentConfig
  chat_history : List ChatMessage
  user_state : List (String × String)

/-- The `StopEvent` payload `{"response": ..., "chat_history": ...}`. -/
structure RunResult where
  response : String
  chat_history : List ChatMessage
deriving DecidableEq, Repr

/-- What `speak_with_agent` returns to the workflow runtime: a `StopEvent`
(zero tool calls) or the batch of dispatched `ToolCallEvent`s, each of
which carries `tools = agent_config.tools`. -/
inductive SpeakOutcome where
  | stop (result : RunResult)
  | dispatch (tool_calls : List ToolSelection) (tools : Option (List BaseTool))

/-- `llm_input = [ChatMessage(role="system", content=system_prompt)] +
chat_history`: the message list sent to the model, for a run whose stored
agent config has (non-`None`) system prompt `p`. -/
def llm_input_messages (st : LoopState) (p : String) : List ChatMessage :=
  { role := .system, content := build_system_prompt p st.user_state } :: st.chat_history

/-- `BasicAgent.speak_with_agent`, given the scripted LLM response `resp`
(`llm.get_tool_calls_from_response(response, error_on_no_tool_call=False)`
reads `resp.tool_calls`).  Mirrors the source faithfully:

* `agent_config.system_prompt.strip()` raises `AttributeError` when the
  stored config is `None` (no attribute `system_prompt`) or its
  `system_prompt` is `None` (no attribute `strip`);
* zero tool calls: append the response message, return the `StopEvent`
  with the response content and updated history — terminal;
* otherwise: record `num_tool_calls`, send one `ToolCallEvent` per tool
  call (each carrying `agent_config.tools`), append the response message. -/
def speak_with_agent (st : LoopState) (resp : ChatMessage) :
    Except RunError (LoopState × SpeakOutcome) :=
  match st.agent_config with
  | none => .error (.attributeError "system_prompt")
  | some cfg =>
    match cfg.system_prompt with
    | none => .error (.attributeError "strip")
    | some _ =>
      -- `if len(tool_calls) == 0:` on the parsed tool-call list
      match resp.tool_calls with
      | [] =>
        let ch := st.chat_history ++ [resp]
        .ok ({ st with chat_history := ch },
             .stop { response := resp.content, chat_history := ch })
      | _ :: _ =>
        let ch := st.chat_history ++ [resp]
        .ok ({ st with chat_history := ch }, .dispatch resp.tool_calls cfg.tools)

/-- Running every dispatched `ToolCallEvent` of one round through
`handle_tool_call` (dispatch order as the representative interleaving of
the `num_workers=4` fan-out); an exception escaping any handler fails the
workflow run. -/
def handle_all (tools : Option (List BaseTool)) :
    List ToolSelection → Except RunError (List ChatMessage)
  | [] => .ok []
  | tc :: tcs =>
    match handle_tool_call tools tc with
    | .error e => .error e
    | .ok msg =>
      match handle_all tools tcs with
      | .error e => .error e
      | .ok msgs => .ok (msg :: msgs)

/-- The agent loop driven by the scripted LLM: each iteration consumes the
next scripted response.  `none` = out of fuel or out of script (the
source loop has no iteration cap; fuel only makes the model total).
`some (.error e)` = a Python exception failed the workflow run;
`some (.ok r)` = the `StopEvent` result. -/
def runLoop : Nat → LoopState → List ChatMessage → Option (Except RunError RunResult)
  | 0, _, _ => none
  | _ + 1, _, [] => none
  | fuel + 1, st, resp :: rest =>
    match speak_with_agent st resp with
    | .error e => some (.error e)
    | .ok (_, .stop result) => some (.ok result)
    | .ok (st1, .dispatch tcs tools) =>
      match handle_all tools tcs with
      | .error e => some (.error e)
      | .ok results =>
        runLoop fuel
          { st1 with
            chat_history := (agg_run ⟨tcs.length, [], st1.chat_history⟩ results).chat_history }
          rest

/-- The external LLM client: only its metadata is observable to `setup`
(`llm.metadata.is_function_calling_model`); its responses are the script. -/
structure LLM where
  is_function_calling_model : Bool

/-- The `StartEvent` keyword arguments after `ev.get` default resolution:
`llm` defaults to `OpenAI(model="gpt-4o", ...)` (a function-calling model)
and `chat_history` to `[]` when the key is absent; a field is `none` only
when the caller explicitly passed `None` (or, for `agent_config` and
`user_msg`, omitted the defaultless key). -/
structure StartEvent where
  agent_config : Option AgentConfig := none
  user_msg : Option String := none
  llm : Option LLM := some { is_function_calling_model := true }
  chat_history : Option (List ChatMessage) := some []
  initial_state : List (String × String) := []

/-- `ChatMessage(role="user", content=user_msg)` -/
def mk_user_message (um : String) : ChatMessage :=
  { role := .user, content := um }

/-- `BasicAgent.setup`: raises `ValueError` when `user_msg`, `llm` or
`chat_history` is `None`, then `ValueError` when the LLM is not a
function-calling model; otherwise stores the (unchecked) agent config and
user state, appends the new user message to the chat history, and emits
the first `LLMCallEvent`. -/
def setup (ev : StartEvent) : Except RunError LoopState :=
  match ev.user_msg, ev.llm, ev.chat_history with
  | some um, some l, some ch =>
    if l.is_function_calling_model then
      .ok { agent_config := ev.agent_config,
            chat_history := ch ++ [mk_user_message um],
            user_state := ev.initial_state }
    else
      .error (.valueError "LLM must be a function calling model!")
  | _, _, _ =>
    .error (.valueError "User message, llm, and chat_history are required!")

/-- `workflow.run(...)`: `setup` followed by the agent loop. -/
def runAgent (fuel : Nat) (ev : StartEvent) (script : List ChatMessage) :
    Option (Except RunError RunResult) :=
  match setup ev with
  | .error e => some (.error e)
  | .ok st => runLoop fuel st script

/-! ## Concrete instances from the notebook -/

/-- The notebook's `add_two_numbers` function: `a + b`. -/
def add_two_numbers (a b : Int) : Int := a + b

/-- `FunctionTool.from_defaults(fn=add_two_numbers)`: parses the two integer
keyword arguments and returns the rendered sum; a call not matching the
signature raises (an error result). -/
def add_two_numbers_tool : BaseTool where
  name := "add_two_numbers"
  call := fun kwargs =>
    match kwargs.lookup "a", kwargs.lookup "b" with
    | some a, some b =>
      match a.toInt?, b.toInt? with
      | some x, some y => .ok (toString (add_two_numbers x y))
      | _, _ => .error "invalid integer literal"
    | _, _ => .error "missing a required argument"

/-- The system prompt of the notebook's `agent_config`. -/
def notebook_system_prompt : String :=
  "You are an agent that adds two numbers together. Do not help the user with anything else."

/-- The notebook's `agent_config` for the Addition Agent. -/
def notebook_agent_config : AgentConfig where
  name := "Addition Agent"
  description := "Used to add two numbers together."
  system_prompt := some notebook_system_prompt
  tools := some [add_two_numbers_tool]

/-! ## Helper lemmas -/

/-- Every message built by a successful `handle_tool_call` has the tool role. -/
theorem handle_tool_call_role {tools : Option (List BaseTool)} {tc : ToolSelection}
    {msg : ChatMessage} (h : handle_tool_call tools tc = .ok msg) : msg.role = .tool := by
  unfold handle_tool_call at h
  repeat' split at h
  all_goals simp_all
  all_goals subst h; rfl

/-- `handle_all` succeeds with one result per dispatched call, every result
being a tool-role message. -/
theorem handle_all_sound {tools : Option (List BaseTool)} :
    ∀ {tcs : List ToolSelection} {results : List ChatMessage},
      handle_all tools tcs = .ok results →
      results.length = tcs.length ∧ ∀ m ∈ results, m.role = .tool := by
  intro tcs
  induction tcs with
  | nil =>
    intro results h
    unfold handle_all at h
    injection h with h
    subst h
    simp
  | cons tc tcs ih =>
    intro results h
    unfold handle_all at h
    cases h1 : handle_tool_call tools tc with
    | error e => rw [h1] at h; exact absurd h (by simp)
    | ok msg =>
      rw [h1] at h
      cases h2 : handle_all tools tcs with
      | error e => rw [h2] at h; exact absurd h (by simp)
      | ok msgs =>
        rw [h2] at h
        injection h with h
        subst h
        obtain ⟨hlen, hrole⟩ := ih h2
        refine ⟨by simp [hlen], ?_⟩
        intro m hm
        rcases List.mem_cons.mp hm with hm | hm
        · subst hm; exact handle_tool_call_role h1
        · exact hrole m hm

/-- Folding a full batch of results through the aggregation step appends
exactly those results to the chat history: partial arrivals only grow the
buffer, and the barrier fires on the last arrival. -/
theorem agg_run_complete :
    ∀ (results : List ChatMessage) (a : AggCtx),
      a.buffer.length + results.length = a.num_tool_calls → results ≠ [] →
      (agg_run a results).chat_history = a.chat_history ++ a.buffer ++ results := by
  intro results
  induction results with
  | nil => intro a _ hne; exact absurd rfl hne
  | cons r rs ih =>
    intro a hlen _
    rcases List.eq_nil_or_concat rs with hrs | _
    · subst hrs
      have hn : a.num_tool_calls ≤ a.buffer.length + 1 := by
        simp at hlen
        omega
      simp [agg_run, aggregate_tool_results, hn]
    · have hrs : rs ≠ [] := by
        rename_i hx
        obtain ⟨l, b, rfl⟩ := hx
        simp
      have hn : ¬ a.num_tool_calls ≤ a.buffer.length + 1 := by
        have : rs.length ≥ 1 := List.length_pos.mpr hrs
        simp at hlen
        omega
      have step : agg_run a (r :: rs) =
          agg_run { a with buffer := a.buffer ++ [r] } rs := by
        simp [agg_run, aggregate_tool_results, hn]
      rw [step]
      have := ih { a with buffer := a.buffer ++ [r] }
        (by simp at hlen ⊢; omega) hrs
      simp at this
      simp [this]

/-- Inversion: a `StopEvent` outcome of `speak_with_agent` comes from a
response with zero tool calls and carries that response's content and the
history with the response appended. -/
theorem speak_stop_inv {st : LoopState} {resp : ChatMessage} {st' : LoopState}
    {r : RunResult} (h : speak_with_agent st resp = .ok (st', .stop r)) :
    resp.tool_calls = [] ∧ st'.chat_history = st.chat_history ++ [resp] ∧
      r = { response := resp.content, chat_history := st.chat_history ++ [resp] } := by
  unfold speak_with_agent at h
  repeat' split at h
  all_goals simp_all
  obtain ⟨h1, h2⟩ := h
  subst h1
  rfl

/-- Inversion: a dispatch outcome of `speak_with_agent` comes from a
response with at least one tool call; all of them are dispatched, with
the config's tools, and the response message is appended. -/
theorem speak_dispatch_inv {st : LoopState} {resp : ChatMessage} {st' : LoopState}
    {tcs : List ToolSelection} {tools : Option (List BaseTool)}
    (h : speak_with_agent st resp = .ok (st', .dispatch tcs tools)) :
    tcs = resp.tool_calls ∧ resp.tool_calls ≠ [] ∧
      st'.chat_history = st.chat_history ++ [resp] := by
  unfold speak_with_agent at h
  repeat' split at h
  all_goals simp_all
  obtain ⟨h1, h2, h3⟩ := h
  subst h1
  exact ⟨by rw [← h2]; simp, rfl⟩

/-- Inversion: a successful `setup` means all three required inputs were
present and the LLM was a function-calling model; the produced state is
the caller's history with the new user message appended. -/
theorem setup_ok_inv {ev : StartEvent} {st : LoopState} (h : setup ev = .ok st) :
    ∃ um l ch, ev.user_msg = some um ∧ ev.llm = some l ∧ ev.chat_history = some ch ∧
      l.is_function_calling_model = true ∧
      st = { agent_config := ev.agent_config,
             chat_history := ch ++ [mk_user_message um],
             user_state := ev.initial_state } := by
  unfold setup at h
  repeat' split at h
  all_goals simp_all

/-- Soundness of the agent loop: a successful run terminates only through a
scripted response with zero tool-call directives; the final history is the
starting history followed by intermediate messages — responses that carried
tool calls and tool-role result messages — and then that final response,
whose content is the returned response text. -/
theorem runLoop_sound :
    ∀ (fuel : Nat) (st : LoopState) (script : List ChatMessage) (result : RunResult),
      runLoop fuel st script = some (.ok result) →
      ∃ (mid : List ChatMessage) (fin : ChatMessage),
        result.chat_history = st.chat_history ++ mid ++ [fin] ∧
        fin ∈ script ∧ fin.tool_calls = [] ∧ result.response = fin.content ∧
        ∀ m ∈ mid, (m ∈ script ∧ m.tool_calls ≠ []) ∨ m.role = .tool := by
  intro fuel
  induction fuel with
  | zero =>
    intro st script result h
    exact absurd h (by simp [runLoop])
  | succ fuel ih =>
    intro st script result h
    match script with
    | [] => exact absurd h (by simp [runLoop])
    | resp :: rest =>
      simp only [runLoop] at h
      split at h
      · exact absurd h (by simp)
      · rename_i st1 r hs
        simp only [Option.some.injEq, Except.ok.injEq] at h
        subst h
        obtain ⟨hempty, _, hr⟩ := speak_stop_inv hs
        subst hr
        exact ⟨[], resp, by simp, by simp, hempty, rfl, by simp⟩
      · rename_i st1 tcs tools hs
        split at h
        · exact absurd h (by simp)
        · rename_i results hh
          obtain ⟨htcs, hne, hch1⟩ := speak_dispatch_inv hs
          obtain ⟨hlen, hrole⟩ := handle_all_sound hh
          have hrne : results ≠ [] := by
            intro hx
            subst hx
            subst htcs
            simp at hlen
            exact hne (by simpa using hlen.symm)
          have hagg : (agg_run ⟨tcs.length, [], st1.chat_history⟩ results).chat_history =
              st1.chat_history ++ results := by
            have := agg_run_complete results ⟨tcs.length, [], st1.chat_history⟩
              (by simpa using hlen) hrne
            simpa using this
          obtain ⟨mid, fin, hhist, hmem, hfin, hresp, hmid⟩ := ih _ rest result h
          refine ⟨resp :: (results ++ mid), fin, ?_, by simp [hmem], hfin, hresp, ?_⟩
          · rw [hhist]
            simp only [hagg]
            simp [hch1]
          · intro m hm
            rcases List.mem_cons.mp hm with hm | hm
            · subst hm
              exact Or.inl ⟨by simp, hne⟩
            · rcases List.mem_append.mp hm with hm | hm
              · exact Or.inr (hrole m hm)
              · rcases hmid m hm with ⟨hm1, hm2⟩ | hm1
                · exact Or.inl ⟨by simp [hm1], hm2⟩
                · exact Or.inr hm1

/-! ## Claim theorems -/

/-- C1 (code-bug evidence): dispatching a `ToolCallRequest` whose tool name is
absent from the registry does **not** produce the literal "tool does not
exist" `ToolCallResult`; `handle_tool_call` builds `additional_kwargs` with
`tool.metadata.get_name()` before the `if not tool:` check, so the step
raises `AttributeError` (`None` has no attribute `metadata`), which aborts
the workflow run instead of yielding a tool-role message. -/
theorem missing_tool_raises_attribute_error :
    handle_tool_call (some [add_two_numbers_tool])
        { tool_id := "call_1", tool_name := "subtract_two_numbers", tool_kwargs := [] } =
      .error (.attributeError "metadata") := rfl

/-- C2: the aggregation stage is a join barrier: while fewer than the recorded
`num_tool_calls` results have arrived, an arriving result only grows the
buffer — the chat history is untouched and no `LLMCallEvent` is emitted;
the arrival that completes the count appends all collected results to the
chat history (each of which, coming from `handle_tool_call`, is a tool-role
message) and emits the `LLMCallEvent` that transitions back to the
model-call stage. -/
theorem aggregate_barrier_correct (a : AggCtx) (ev : ChatMessage) :
    (a.buffer.length + 1 < a.num_tool_calls →
      (aggregate_tool_results a ev).1.chat_history = a.chat_history ∧
      (aggregate_tool_results a ev).1.buffer = a.buffer ++ [ev] ∧
      (aggregate_tool_results a ev).2 = false) ∧
    (a.buffer.length + 1 = a.num_tool_calls →
      (aggregate_tool_results a ev).1.chat_history = a.chat_history ++ a.buffer ++ [ev] ∧
      (aggregate_tool_results a ev).1.buffer = [] ∧
      (aggregate_tool_results a ev).2 = true) ∧
    (∀ (tools : Option (List BaseTool)) (tc : ToolSelection) (msg : ChatMessage),
      handle_tool_call tools tc = .ok msg → msg.role = .tool) := by
  refine ⟨?_, ?_, fun _ _ _ h => handle_tool_call_role h⟩
  · intro hlt
    have hn : ¬ a.num_tool_calls ≤ a.buffer.length + 1 := by omega
    simp [aggregate_tool_results, hn]
  · intro heq
    have hn : a.num_tool_calls ≤ a.buffer.length + 1 := by omega
    simp [aggregate_tool_results, hn]

/-- A registered tool with a constant result, used by witnesses. -/
def echo_tool : BaseTool where
  name := "echo"
  call := fun _ => .ok "ok"

/-- A concrete tool-role result message used by the C2 witness. -/
def sample_result_msg : ChatMessage :=
  { role := .tool, content := "20", tool_call_id := some "call_1",
    name := some "add_two_numbers" }

/-- C2 witness: the barrier behavior at concrete inputs — a partial arrival
(1 of 2) leaves the history empty, a completing arrival (1 of 1) appends
the result, and a concrete `handle_tool_call` output has the tool role. -/
theorem aggregate_barrier_correct_witness :
    (aggregate_tool_results ⟨2, [], []⟩ sample_result_msg).1.chat_history = [] ∧
    (aggregate_tool_results ⟨1, [], []⟩ sample_result_msg).1.chat_history =
      [] ++ [] ++ [sample_result_msg] ∧
    ({ role := .tool, content := "ok", tool_call_id := some "call_1",
       name := some "echo", tool_calls := [] } : ChatMessage).role = .tool := by
  refine ⟨((aggregate_barrier_correct ⟨2, [], []⟩ sample_result_msg).1 (by decide)).1,
          ((aggregate_barrier_correct ⟨1, [], []⟩ sample_result_msg).2.1 (by decide)).1,
          (aggregate_barrier_correct ⟨1, [], []⟩ sample_result_msg).2.2
            (some [echo_tool])
            { tool_id := "call_1", tool_name := "echo", tool_kwargs := [] }
            { role := .tool, content := "ok", tool_call_id := some "call_1",
              name := some "echo", tool_calls := [] }
            rfl⟩

/-- C3: a tool that is present in the registry and whose invocation raises is
caught by the `try/except` around `tool.acall`: `handle_tool_call` returns
normally (the run is not aborted) with a tool-role `ToolCallResult` whose
content is the "Encountered error in tool call" message describing the
error, fed back to the conversation like ordinary tool output. -/
theorem tool_error_captured (tools : List BaseTool) (tc : ToolSelection)
    (tool : BaseTool) (e : String)
    (hfound : tools_by_name_get tools tc.tool_name = some tool)
    (hraise : tool.call tc.tool_kwargs = .error e) :
    handle_tool_call (some tools) tc =
      .ok { role := .tool, content := "Encountered error in tool call: " ++ e,
            tool_call_id := some tc.tool_id, name := some tool.name, tool_calls := [] } := by
  unfold handle_tool_call
  dsimp only
  rw [hfound]
  dsimp only
  rw [hraise]

/-- A registered tool that always raises, for the C3 witness. -/
def failing_tool : BaseTool where
  name := "boom"
  call := fun _ => .error "division by zero"

/-- C3 witness: invoking the always-raising registered tool yields the
error-describing tool-role result, not an aborted run. -/
theorem tool_error_captured_witness :
    handle_tool_call (some [failing_tool])
        { tool_id := "call_9", tool_name := "boom", tool_kwargs := [] } =
      .ok { role := .tool, content := "Encountered error in tool call: division by zero",
            tool_call_id := some "call_9", name := some "boom", tool_calls := [] } :=
  tool_error_captured [failing_tool]
    { tool_id := "call_9", tool_name := "boom", tool_kwargs := [] }
    failing_tool "division by zero" rfl rfl

/-- C4: a model response with zero tool-call directives makes
`speak_with_agent` append that assistant response to the conversation,
dispatch no tool work, and stop with a `RunResult` carrying the message's
content and the updated history; and a result is the only successful way
out of the loop — every terminating run ends through such a zero-directive
response, whose content is the response text and which is the last entry
of the returned history. -/
theorem zero_tool_calls_terminal :
    (∀ (st : LoopState) (cfg : AgentConfig) (p : String) (resp : ChatMessage),
      st.agent_config = some cfg → cfg.system_prompt = some p → resp.tool_calls = [] →
      speak_with_agent st resp =
        .ok ({ st with chat_history := st.chat_history ++ [resp] },
             .stop { response := resp.content,
                     chat_history := st.chat_history ++ [resp] })) ∧
    (∀ (fuel : Nat) (st : LoopState) (script : List ChatMessage) (result : RunResult),
      runLoop fuel st script = some (.ok result) →
      ∃ fin, fin ∈ script ∧ fin.tool_calls = [] ∧ result.response = fin.content ∧
        ∃ pre, result.chat_history = pre ++ [fin]) := by
  constructor
  · intro st cfg p resp hc hp hempty
    simp [speak_with_agent, hc, hp, hempty]
  · intro fuel st script result h
    obtain ⟨mid, fin, hhist, hmem, hfin, hresp, _⟩ := runLoop_sound fuel st script result h
    exact ⟨fin, hmem, hfin, hresp, st.chat_history ++ mid, by simpa using hhist⟩

/-- The final assistant response of the notebook's first example run. -/
def final_msg : ChatMessage := { role := .assistant, content := "10 + 10 is 20." }

/-- The loop state right after `setup` in the notebook's first example run. -/
def start_state : LoopState :=
  { agent_config := some notebook_agent_config, chat_history := [],
    user_state := [("user_name", "Logan")] }

/-- C4 witness: both parts at the concrete zero-tool-call response. -/
theorem zero_tool_calls_terminal_witness :
    speak_with_agent start_state final_msg =
      .ok ({ agent_config := some notebook_agent_config, chat_history := [final_msg],
             user_state := [("user_name", "Logan")] },
           .stop { response := "10 + 10 is 20.", chat_history := [final_msg] }) ∧
    (∃ fin, fin ∈ [final_msg] ∧ fin.tool_calls = [] ∧
      ("10 + 10 is 20." : String) = fin.content ∧
      ∃ pre, [final_msg] = pre ++ [fin]) :=
  ⟨zero_tool_calls_terminal.1 start_state notebook_agent_config notebook_system_prompt
      final_msg rfl rfl rfl,
   zero_tool_calls_terminal.2 1 start_state [final_msg]
      { response := "10 + 10 is 20.", chat_history := [final_msg] } rfl⟩

/-- C5: `setup` raises exactly when a required input is `None` (user message,
LLM, chat history) or the supplied LLM does not declare function-calling
capability — no other condition raises; and when it raises, the whole run
fails with that very error for every LLM script, identically across
scripts: the scripted model is never consulted, so no model call happens. -/
theorem setup_error_characterization (ev : StartEvent) :
    ((∃ e, setup ev = .error e) ↔
      (ev.user_msg = none ∨ ev.llm = none ∨ ev.chat_history = none ∨
       ∃ l, ev.llm = some l ∧ l.is_function_calling_model = false)) ∧
    (∀ e, setup ev = .error e →
      ∀ (fuel : Nat) (script script' : List ChatMessage),
        runAgent fuel ev script = some (.error e) ∧
        runAgent fuel ev script = runAgent fuel ev script') := by
  constructor
  · rcases hu : ev.user_msg with _ | um <;>
    rcases hl : ev.llm with _ | l <;>
    rcases hc : ev.chat_history with _ | ch
    all_goals simp [setup, hu, hl, hc]
    all_goals cases hf : l.is_function_calling_model <;> simp [hf]
  · intro e he fuel script script'
    unfold runAgent
    rw [he]
    exact ⟨rfl, rfl⟩

/-- C5 witness: a start event missing the user message (all other fields at
their defaults) raises the `ValueError` before any model call — the run
outcome is that error and is identical whatever the script. -/
theorem setup_error_characterization_witness :
    runAgent 3 { user_msg := none } [final_msg] =
      some (.error (.valueError "User message, llm, and chat_history are required!")) ∧
    runAgent 3 { user_msg := none } [final_msg] = runAgent 3 { user_msg := none } [] :=
  (setup_error_characterization { user_msg := none }).2
    (.valueError "User message, llm, and chat_history are required!") rfl 3 [final_msg] []

/-- C6: the system message sent to the model is the agent's (stripped) system
prompt followed by the user-state block rendered as one `key: value` line
per entry in insertion order, placed before the whole chat history; in
particular, with user state `user_name = Logan` the rendered system prompt
of the notebook agent contains the literal line `user_name: Logan`. -/
theorem user_state_rendered (st : LoopState) (p : String) :
    (∃ m, llm_input_messages st p = m :: st.chat_history ∧ m.role = .system ∧
      m.content = py_strip p ++ "\n\nHere is the current user state:\n" ++
        String.intercalate "\n" (st.user_state.map fun kv => kv.1 ++ ": " ++ kv.2)) ∧
    has_line (build_system_prompt notebook_system_prompt [("user_name", "Logan")])
      "user_name: Logan" = true := by
  exact ⟨⟨_, rfl, rfl, rfl⟩, by decide⟩

/-- C7: every completed run's chat history is the caller's history followed
by the new user message, then intermediate messages, then the final
assistant message; the new user message and the final assistant message
each occur exactly once in the appended segment (neither appears among the
intermediate messages, and they differ), with the user message before the
assistant one.  The script hypothesis states that the LLM client produces
assistant-role response messages. -/
theorem user_and_final_appended_once
    (fuel : Nat) (ev : StartEvent) (script : List ChatMessage) (result : RunResult)
    (hroles : ∀ m ∈ script, m.role = .assistant)
    (hrun : runAgent fuel ev script = some (.ok result)) :
    ∃ um ch0 mid fin,
      ev.user_msg = some um ∧ ev.chat_history = some ch0 ∧
      result.chat_history = ch0 ++ [mk_user_message um] ++ mid ++ [fin] ∧
      fin.role = .assistant ∧
      mk_user_message um ∉ mid ∧ mk_user_message um ≠ fin ∧ fin ∉ mid := by
  unfold runAgent at hrun
  cases hsetup : setup ev with
  | error e => rw [hsetup] at hrun; simp at hrun
  | ok st =>
    rw [hsetup] at hrun
    obtain ⟨um, l, ch0, hum, hl, hch, hfc, hst⟩ := setup_ok_inv hsetup
    obtain ⟨mid, fin, hhist, hmem, hfin, hresp, hmid⟩ := runLoop_sound fuel st script result hrun
    refine ⟨um, ch0, mid, fin, hum, hch, ?_, hroles fin hmem, ?_, ?_, ?_⟩
    · rw [hhist, hst]
    · intro hin
      rcases hmid _ hin with ⟨hm1, _⟩ | hm1
      · have := hroles _ hm1
        simp [mk_user_message] at this
      · simp [mk_user_message] at hm1
    · intro heq
      have := hroles fin hmem
      rw [← heq] at this
      simp [mk_user_message] at this
    · intro hin
      rcases hmid _ hin with ⟨_, hm2⟩ | hm1
      · exact hm2 hfin
      · have := hroles fin hmem
        simp [hm1] at this

/-- The `StartEvent` of the notebook's first example run. -/
def start_event : StartEvent :=
  { agent_config := some notebook_agent_config,
    user_msg := some "What is 10 + 10?",
    llm := some { is_function_calling_model := true },
    chat_history := some [],
    initial_state := [("user_name", "Logan")] }

/-- C7 witness: the concrete one-round run appends exactly the user message
and then the final assistant message. -/
theorem user_and_final_appended_once_witness :
    ∃ um ch0 mid fin,
      start_event.user_msg = some um ∧ start_event.chat_history = some ch0 ∧
      RunResult.chat_history
          { response := "10 + 10 is 20.",
            chat_history := [mk_user_message "What is 10 + 10?", final_msg] } =
        ch0 ++ [mk_user_message um] ++ mid ++ [fin] ∧
      fin.role = .assistant ∧
      mk_user_message um ∉ mid ∧ mk_user_message um ≠ fin ∧ fin ∉ mid :=
  user_and_final_appended_once 1 start_event [final_msg]
    { response := "10 + 10 is 20.",
      chat_history := [mk_user_message "What is 10 + 10?", final_msg] }
    (by intro m hm; rw [List.mem_singleton] at hm; subst hm; rfl) rfl

/-- Tools sharing a name, for the C8 counterexample. -/
def dup_tool_a : BaseTool where
  name := "add_two_numbers"
  call := fun _ => .ok "first"

/-- Second tool with the duplicated name; its result differs from
`dup_tool_a` so shadowing is observable. -/
def dup_tool_b : BaseTool where
  name := "add_two_numbers"
  call := fun _ => .ok "second"

/-- C8 counterexample: constructing an `AgentConfig` whose tools list
contains two tools with the same name does **not** fail validation — the
construction succeeds and keeps both entries. -/
theorem duplicate_tool_names_accepted :
    mk_agent_config "Addition Agent" "desc" (some "p") (some [dup_tool_a, dup_tool_b]) =
      .ok { name := "Addition Agent", description := "desc", system_prompt := some "p",
            tools := some [dup_tool_a, dup_tool_b] } := rfl

/-- C8 amended: `AgentConfig` construction never fails (the pydantic model
declares no validator), and duplicate tool names silently shadow one
another — the registry lookup used by `handle_tool_call` resolves a name
to the last tool in the list bearing it. -/
theorem duplicate_tool_names_shadow :
    (∀ (n d : String) (sp : Option String) (tools : Option (List BaseTool)),
      ∃ cfg, mk_agent_config n d sp tools = .ok cfg) ∧
    (∀ (ts : List BaseTool) (t : BaseTool), tools_by_name_get (ts ++ [t]) t.name = some t) := by
  constructor
  · intro n d sp tools
    exact ⟨_, rfl⟩
  · intro ts t
    unfold tools_by_name_get
    rw [List.foldl_append]
    simp

/-- C9: with the stored agent config present but its `system_prompt` left at
its default `None`, the model-call stage raises `AttributeError` on
`.strip()`; with any non-`None` system prompt, `speak_with_agent` returns
normally — a non-`None` system prompt is the unstated precondition that
makes the error branch unreachable. -/
theorem none_system_prompt_raises (st : LoopState) (cfg : AgentConfig)
    (resp : ChatMessage) (hc : st.agent_config = some cfg) :
    (cfg.system_prompt = none →
      speak_with_agent st resp = .error (.attributeError "strip")) ∧
    (∀ p, cfg.system_prompt = some p → ∃ out, speak_with_agent st resp = .ok out) := by
  constructor
  · intro hp
    unfold speak_with_agent
    rw [hc]
    dsimp only
    rw [hp]
  · intro p hp
    unfold speak_with_agent
    rw [hc]
    dsimp only
    rw [hp]
    dsimp only
    cases htc : resp.tool_calls with
    | nil => exact ⟨_, rfl⟩
    | cons t ts => exact ⟨_, rfl⟩

/-- An agent config whose optional system prompt was left at its `None`
default, for the C9 witness. -/
def no_prompt_config : AgentConfig where
  name := "A"
  description := "d"

/-- C9 witness: the concrete config without a system prompt makes the
model-call stage raise, and the notebook config (with a prompt) does not. -/
theorem none_system_prompt_raises_witness :
    speak_with_agent
        { agent_config := some no_prompt_config, chat_history := [], user_state := [] }
        final_msg = .error (.attributeError "strip") ∧
    ∃ out, speak_with_agent
        { agent_config := some notebook_agent_config, chat_history := [], user_state := [] }
        final_msg = .ok out :=
  ⟨(none_system_prompt_raises
      { agent_config := some no_prompt_config, chat_history := [], user_state := [] }
      no_prompt_config final_msg rfl).1 rfl,
   (none_system_prompt_raises
      { agent_config := some notebook_agent_config, chat_history := [], user_state := [] }
      notebook_agent_config final_msg rfl).2 notebook_system_prompt rfl⟩

/-- C10: the caller-supplied chat history is preserved, in order, as a
prefix of the chat history returned in the `RunResult`: every operation of
the run only appends messages. -/
theorem initial_history_preserved (fuel : Nat) (ev : StartEvent)
    (script : List ChatMessage) (result : RunResult)
    (hrun : runAgent fuel ev script = some (.ok result)) :
    ∃ ch0, ev.chat_history = some ch0 ∧ ch0 <+: result.chat_history := by
  unfold runAgent at hrun
  cases hsetup : setup ev with
  | error e => rw [hsetup] at hrun; simp at hrun
  | ok st =>
    rw [hsetup] at hrun
    obtain ⟨um, l, ch0, hum, hl, hch, hfc, hst⟩ := setup_ok_inv hsetup
    obtain ⟨mid, fin, hhist, _, _, _, _⟩ := runLoop_sound fuel st script result hrun
    refine ⟨ch0, hch, ?_⟩
    rw [hhist, hst]
    have hassoc : ((ch0 ++ [mk_user_message um]) ++ mid ++ [fin] : List ChatMessage) =
        ch0 ++ ([mk_user_message um] ++ mid ++ [fin]) := by simp
    simp only [hassoc]
    exact List.prefix_append ch0 _

/-- C10 witness: the concrete run extends the (empty) caller history. -/
theorem initial_history_preserved_witness :
    ∃ ch0, start_event.chat_history = some ch0 ∧
      ch0 <+: [mk_user_message "What is 10 + 10?", final_msg] :=
  initial_history_preserved 1 start_event [final_msg]
    { response := "10 + 10 is 20.",
      chat_history := [mk_user_message "What is 10 + 10?", final_msg] } rfl

end BasicAgent
